import Mathlib

/-!
Verification of the manual-swap / almost-swapped scanner
(`src/tools/clippy/clippy_lints/src/swap.rs`).

The statement and expression shapes, the three detectors
(`check_manual_swap`, `check_suspicious_swap`, `check_xor_swap`) and the
shared suggestion generator (`generate_swap_warning`) are translated from
the source file.  The collaborators that the source imports from
`clippy_utils` (`eq_expr_value`, `can_mut_borrow_both`, `in_constant`,
`std_or_core`, the `Sugg` pretty-printer) and the type query
(`typeck_results().expr_ty(..).peel_refs()`) are not part of the sampled
sources; they are modelled from the specification, as marked on each
definition.
-/

namespace SwapLint

/-- A source span: byte range plus an opaque syntax (hygiene) context token. -/
structure Span where
  lo : Nat
  hi : Nat
  ctxt : Nat
deriving DecidableEq

/-- `Span::to`: the span from the start of `a` to the end of `b`. -/
def Span.to (a b : Span) : Span := ⟨a.lo, b.hi, a.ctxt⟩

/-- `Span::eq_ctxt`: same hygiene context. -/
def Span.eqCtxt (a b : Span) : Bool := a.ctxt == b.ctxt

/-- Binary operators; only `BitXor` is inspected by the scanner. -/
inductive BinOp where
  | bitXor
  | add
  | opaqueOp
deriving DecidableEq

/-- Expression trees (`rustc_hir::Expr`), restricted to the shapes the
scanner inspects: resolved paths (`QPath::Resolved(None, _)`), index
expressions, dereferences (a pointer-like place), literals, assignments and
compound assignments.  Each node carries its span. -/
inductive Expr where
  | path (segments : List String) (span : Span)
  | index (base : Expr) (idx : Expr) (span : Span)
  | deref (e : Expr) (span : Span)
  | lit (n : Nat) (span : Span)
  | assign (lhs : Expr) (rhs : Expr) (span : Span)
  | assignOp (op : BinOp) (lhs : Expr) (rhs : Expr) (span : Span)
deriving DecidableEq

/-- The span carried by an expression node. -/
def Expr.span : Expr → Span
  | .path _ s => s
  | .index _ _ s => s
  | .deref _ s => s
  | .lit _ s => s
  | .assign _ _ s => s
  | .assignOp _ _ _ s => s

/-- Patterns: a single-identifier binding (`PatKind::Binding`, with an
optional sub-pattern) or any other pattern shape. -/
inductive Pat where
  | binding (ident : String) (subpat : Option Unit)
  | wild
deriving DecidableEq

/-- Statement kinds: local declarations (`StmtKind::Local`), semicolon
expression statements (`StmtKind::Semi`), bare expression statements and
items. -/
inductive StmtKind where
  | localDecl (pat : Pat) (init : Option Expr)
  | semi (e : Expr)
  | exprStmt (e : Expr)
  | item
deriving DecidableEq

/-- A statement with its span. -/
structure Stmt where
  kind : StmtKind
  span : Span
deriving DecidableEq

/-- A block of statements.  `inConst` models the collaborator query
`in_constant(cx, block.hir_id)`: whether the block sits inside a
constant-evaluation context. -/
structure Block where
  stmts : List Stmt
  inConst : Bool

/-- Type classification of an expression, after peeling references:
the four container kinds the index rewrite accepts, or anything else
(including "type information unavailable"). -/
inductive TypeTag where
  | array
  | slice
  | vec
  | vecDeque
  | unknown
deriving DecidableEq

/-- The lint context: `stdOrCore` models the collaborator `std_or_core(cx)`
(`none` when neither path is available), and `exprTy` models
`cx.typeck_results().expr_ty(e).peel_refs()` classified as a `TypeTag`. -/
structure Ctx where
  stdOrCore : Option String
  exprTy : Expr → TypeTag

/-- Suggestion applicability grades (`rustc_errors::Applicability`). -/
inductive Applicability where
  | machineApplicable
  | maybeIncorrect
  | hasPlaceholders
  | unspecified
deriving DecidableEq

/-- The two lints declared by the pass. -/
inductive Lint where
  | manualSwap
  | almostSwapped
deriving DecidableEq

/-- An emitted diagnostic: lint kind, covering span, primary message,
replacement text, applicability, and the optional auxiliary note. -/
structure Finding where
  lint : Lint
  span : Span
  msg : String
  sugg : String
  applicability : Applicability
  note : Option String
deriving DecidableEq

/-- Modelled from the spec: `eq_expr_value` from `clippy_utils` (not among
the sampled sources).  Two expressions are equivalent iff they are
structurally identical ignoring spans; effectful forms (assignments,
compound assignments) are never considered side-effect-free, hence never
equivalent. -/
def eq_expr_value : Expr → Expr → Bool
  | .path s _, .path t _ => s == t
  | .index b1 i1 _, .index b2 i2 _ => eq_expr_value b1 b2 && eq_expr_value i1 i2
  | .deref e1 _, .deref e2 _ => eq_expr_value e1 e2
  | .lit m _, .lit n _ => m == n
  | _, _ => false

/-- A plain unqualified local variable reference: a resolved path with a
single segment. -/
def is_plain_local : Expr → Option String
  | .path [s] _ => some s
  | _ => none

/-- Modelled from the spec: `can_mut_borrow_both` from `clippy_utils` (not
among the sampled sources).  True iff the two expressions are proven to
denote disjoint mutable storage: two distinct plain local variables.  All
ambiguous cases (same local, index expressions, dereferences, anything
else) are conservatively rejected. -/
def can_mut_borrow_both (e1 e2 : Expr) : Bool :=
  match is_plain_local e1, is_plain_local e2 with
  | some a, some b => if a = b then false else true
  | _, _ => false

/-- Render the segments of a path separated by `::`. -/
def renderPath : List String → String
  | [] => ""
  | [s] => s
  | s :: rest => s ++ "::" ++ renderPath rest

/-- Modelled from the spec: the snippet of source text covered by an
expression (`snippet_with_applicability` / `Sugg::hir_*`); always
available in this model, so applicability is never downgraded to
`HasPlaceholders`. -/
def snippet : Expr → String
  | .path segs _ => renderPath segs
  | .index b i _ => snippet b ++ "[" ++ snippet i ++ "]"
  | .deref e _ => "*" ++ snippet e
  | .lit n _ => toString n
  | .assign l r _ => snippet l ++ " = " ++ snippet r
  | .assignOp _ l r _ => snippet l ++ " ^= " ++ snippet r

/-- Whether `Sugg::maybe_par` must parenthesize the expression. -/
def needsPar : Expr → Bool
  | .path _ _ => false
  | .index _ _ _ => false
  | .lit _ _ => false
  | _ => true

/-- Modelled from the spec: `Sugg::maybe_par`. -/
def maybe_par (e : Expr) : String :=
  if needsPar e then "(" ++ snippet e ++ ")" else snippet e

/-- Modelled from the spec: `Sugg::mut_addr`, the expression converted to
mutable-reference form. -/
def mut_addr (e : Expr) : String := "&mut " ++ maybe_par e

/-- The index-rewrite branch of `generate_swap_warning` (swap.rs lines
86-114): when both places are index expressions over `eq_expr_value`-equal
bases whose type is a slice, array, `Vec` or `VecDeque`, suggest the
container-level `base.swap(idx1, idx2)` with `MachineApplicable`
applicability and no note. -/
def index_swap_sugg (tyOf : Expr → TypeTag) (e1 e2 : Expr) (span : Span) : Option Finding :=
  match e1, e2 with
  | .index lhs1 idx1 _, .index lhs2 idx2 _ =>
    if eq_expr_value lhs1 lhs2 then
      let ty := tyOf lhs1
      if ty = .slice ∨ ty = .array ∨ ty = .vec ∨ ty = .vecDeque then
        some { lint := .manualSwap
               span := span
               msg := "this looks like you are swapping elements of `" ++ snippet lhs1 ++ "` manually"
               sugg := maybe_par lhs1 ++ ".swap(" ++ snippet idx1 ++ ", " ++ snippet idx2 ++ ")"
               applicability := .machineApplicable
               note := none }
      else none
    else none
  | _, _ => none

/-- The mutable-reference branch of `generate_swap_warning` (swap.rs lines
118-138): suggest `{std}::mem::swap(&mut e1, &mut e2)`; `none` when
`std_or_core` is unavailable.  The `mem::replace` note is attached unless
the match is XOR-based. -/
def ref_swap_sugg (stdOrCore : Option String) (e1 e2 : Expr) (span : Span)
    (is_xor_based : Bool) : Option Finding :=
  match stdOrCore with
  | none => none
  | some sugg =>
    some { lint := .manualSwap
           span := span
           msg := "this looks like you are swapping `" ++ snippet e1 ++ "` and `" ++ snippet e2 ++ "` manually"
           sugg := sugg ++ "::mem::swap(" ++ mut_addr e1 ++ ", " ++ mut_addr e2 ++ ")"
           applicability := .machineApplicable
           note := if is_xor_based then none
             else some ("or maybe you should use `" ++ sugg ++ "::mem::replace`?") }

/-- `generate_swap_warning` (swap.rs lines 82-139): if the two places can
be mutably borrowed together, emit the mutable-reference rewrite;
otherwise attempt only the index rewrite. -/
def generate_swap_warning (cx : Ctx) (e1 e2 : Expr) (span : Span)
    (is_xor_based : Bool) : Option Finding :=
  if can_mut_borrow_both e1 e2 then
    ref_swap_sugg cx.stdOrCore e1 e2 span is_xor_based
  else
    index_swap_sugg cx.exprTy e1 e2 span

/-- Overlapping sliding windows of width 3. -/
def windows3 {α : Type} : List α → List (α × α × α)
  | a :: b :: c :: rest => (a, b, c) :: windows3 (b :: c :: rest)
  | _ => []

/-- Overlapping sliding windows of width 2 (`array_windows::<2>`). -/
def windows2 {α : Type} : List α → List (α × α)
  | a :: b :: rest => (a, b) :: windows2 (b :: rest)
  | _ => []

/-- The `if_chain` body of `check_manual_swap` (swap.rs lines 148-171) on
one 3-statement window: `let t = foo(); foo() = bar(); bar() = t;`. -/
def manual_swap_window (cx : Ctx) (s0 s1 s2 : Stmt) : Option Finding :=
  match s0.kind with
  | .localDecl (.binding ident none) (some tmp_init) =>
    match s1.kind with
    | .semi (.assign lhs1 rhs1 _) =>
      match s2.kind with
      | .semi (.assign lhs2 (.path segs _) spSecond) =>
        match segs with
        | [seg] =>
          if ident == seg && eq_expr_value tmp_init lhs1 && eq_expr_value rhs1 lhs2 then
            generate_swap_warning cx lhs1 lhs2 (s0.span.to spSecond) false
          else none
        | _ => none
      | _ => none
    | _ => none
  | _ => none

/-- `check_manual_swap` (swap.rs lines 142-173): skipped entirely inside a
constant-evaluation context, else every width-3 window is tried. -/
def check_manual_swap (cx : Ctx) (block : Block) : List Finding :=
  if block.inConst then []
  else (windows3 block.stmts).filterMap fun w => manual_swap_window cx w.1 w.2.1 w.2.2

/-- The left-hand side extracted by `parse`: either a place expression or
the identifier bound by a local declaration. -/
inductive ExprOrIdent where
  | expr (e : Expr)
  | ident (i : String)
deriving DecidableEq

/-- `parse` (swap.rs lines 232-245): a statement viewed as
"target := value". -/
def parse (stmt : Stmt) : Option (ExprOrIdent × Expr) :=
  match stmt.kind with
  | .semi (.assign lhs rhs _) => some (.expr lhs, rhs)
  | .localDecl (.binding identL _) (some rhs) => some (.ident identL, rhs)
  | _ => none

/-- `is_same` (swap.rs lines 210-224): value-equivalence, or — for a bound
identifier — a single-segment unqualified path with that name. -/
def is_same (lhs : ExprOrIdent) (rhs : Expr) : Bool :=
  match lhs with
  | .expr e => eq_expr_value e rhs
  | .ident i =>
    match rhs with
    | .path [seg] _ => seg == i
    | _ => false

/-- The snippet used for the left slot of the almost-swapped message
(`Sugg::hir_opt` or the raw identifier, swap.rs lines 183-186). -/
def sugg_of : ExprOrIdent → String
  | .expr e => snippet e
  | .ident i => i

/-- Mutable-reference form of the left slot. -/
def mut_addr_of : ExprOrIdent → String
  | .expr e => mut_addr e
  | .ident i => "&mut " ++ i

/-- The structural part of one `check_suspicious_swap` window (swap.rs
lines 178-189): both statements parse as assignments, share a hygiene
context, and each target equals the value of the other.  Returns the left slot, the
first value expression and the covering span. -/
def suspicious_match (first second : Stmt) : Option (ExprOrIdent × Expr × Span) :=
  match parse first, parse second with
  | some (lhs0, rhs0), some (lhs1, rhs1) =>
    if first.span.eqCtxt second.span && is_same lhs0 rhs1 && is_same lhs1 rhs0 then
      some (lhs0, rhs0, first.span.to rhs1.span)
    else none
  | _, _ => none

/-- The `ALMOST_SWAPPED` diagnostic built for a matched window (swap.rs
lines 191-205): always `MaybeIncorrect`, always carrying the
`mem::replace` note. -/
def mkSuspFinding (sugg : String) (lhs0 : ExprOrIdent) (rhs0 : Expr) (span : Span) : Finding :=
  { lint := .almostSwapped
    span := span
    msg := "this looks like you are trying to swap `" ++ sugg_of lhs0 ++ "` and `" ++ snippet rhs0 ++ "`"
    sugg := sugg ++ "::mem::swap(" ++ mut_addr_of lhs0 ++ ", " ++ mut_addr_of (.expr rhs0) ++ ")"
    applicability := .maybeIncorrect
    note := some ("or maybe you should use `" ++ sugg ++ "::mem::replace`?") }

/-- The loop of `check_suspicious_swap` (swap.rs lines 177-207).  On a
matched window whose `std_or_core` query fails the source executes
`return`, abandoning the remaining windows; that early return is modelled
by producing `[]` for the whole tail. -/
def suspicious_go (cx : Ctx) : List (Stmt × Stmt) → List Finding
  | [] => []
  | (f, s) :: rest =>
    match suspicious_match f s with
    | none => suspicious_go cx rest
    | some (lhs0, rhs0, sp) =>
      match cx.stdOrCore with
      | none => []
      | some sugg => mkSuspFinding sugg lhs0 rhs0 sp :: suspicious_go cx rest

/-- `check_suspicious_swap` (swap.rs lines 176-208). -/
def check_suspicious_swap (cx : Ctx) (block : Block) : List Finding :=
  suspicious_go cx (windows2 block.stmts)

/-- Modelled from the spec: the almost-swapped scan as the specification
describes it — every window of the block is examined, a window whose
collaborator query fails degrades to "no match", and the scan is never
aborted. -/
def suspicious_scan_spec (cx : Ctx) : List (Stmt × Stmt) → List Finding
  | [] => []
  | (f, s) :: rest =>
    match suspicious_match f s, cx.stdOrCore with
    | some (lhs0, rhs0, sp), some sugg =>
      mkSuspFinding sugg lhs0 rhs0 sp :: suspicious_scan_spec cx rest
    | _, _ => suspicious_scan_spec cx rest

/-- `extract_sides_of_xor_assign` (swap.rs lines 267-282). -/
def extract_sides_of_xor_assign (stmt : Stmt) : Option (Expr × Expr) :=
  match stmt.kind with
  | .semi (.assignOp .bitXor lhs rhs _) => some (lhs, rhs)
  | _ => none

/-- The `if_chain` body of `check_xor_swap` (swap.rs lines 250-262) on one
3-statement window. -/
def xor_swap_window (cx : Ctx) (s0 s1 s2 : Stmt) : Option Finding :=
  match extract_sides_of_xor_assign s0, extract_sides_of_xor_assign s1,
        extract_sides_of_xor_assign s2 with
  | some (lhs0, rhs0), some (lhs1, rhs1), some (lhs2, rhs2) =>
    if eq_expr_value lhs0 rhs1 && eq_expr_value lhs2 rhs1 &&
        eq_expr_value lhs1 rhs0 && eq_expr_value lhs1 rhs2 then
      generate_swap_warning cx lhs0 rhs0 (s0.span.to s2.span) true
    else none
  | _, _, _ => none

/-- `check_xor_swap` (swap.rs lines 248-264). -/
def check_xor_swap (cx : Ctx) (block : Block) : List Finding :=
  (windows3 block.stmts).filterMap fun w => xor_swap_window cx w.1 w.2.1 w.2.2

/-- `Swap::check_block` (swap.rs lines 74-80): the three detectors run in
order on every block. -/
def check_block (cx : Ctx) (block : Block) : List Finding :=
  check_manual_swap cx block ++ check_suspicious_swap cx block ++ check_xor_swap cx block

/-- A single-segment path expression. -/
def mkPath (name : String) (sp : Span) : Expr := Expr.path [name] sp

/-- The statement `x = y;`. -/
def assignStmt (x y : String) (u : Span) : Stmt :=
  ⟨.semi (.assign (mkPath x u) (mkPath y u) u), u⟩

/-- The statement `x ^= y;`. -/
def xorAssignStmt (x y : String) (u : Span) : Stmt :=
  ⟨.semi (.assignOp .bitXor (mkPath x u) (mkPath y u) u), u⟩

/-- The window `let t = a; a = b; b = t;` over plain locals. -/
def tempSwapStmts (t a b : String) (u0 u1 u2 : Span) : List Stmt :=
  [ ⟨.localDecl (.binding t none) (some (mkPath a u0)), u0⟩,
    ⟨.semi (.assign (mkPath a u1) (mkPath b u1) u1), u1⟩,
    ⟨.semi (.assign (mkPath b u2) (mkPath t u2) u2), u2⟩ ]

/-- The window `a ^= b; b ^= a; a ^= b;`. -/
def xorSwapStmts (a b : String) (u0 u1 u2 : Span) : List Stmt :=
  [xorAssignStmt a b u0, xorAssignStmt b a u1, xorAssignStmt a b u2]

/-- The window `a = b; b = a;`. -/
def almostSwapStmts (a b : String) (u0 u1 : Span) : List Stmt :=
  [assignStmt a b u0, assignStmt b a u1]

/-- The window `let t = v[i]; v[i] = v[j]; v[j] = t;` over index
expressions with arbitrary index sub-expressions. -/
def indexTempSwapStmts (t v : String) (i1 i2 : Expr) (u0 u1 u2 : Span) : List Stmt :=
  [ ⟨.localDecl (.binding t none) (some (.index (mkPath v u0) i1 u0)), u0⟩,
    ⟨.semi (.assign (.index (mkPath v u1) i1 u1) (.index (mkPath v u1) i2 u1) u1), u1⟩,
    ⟨.semi (.assign (.index (mkPath v u2) i2 u2) (mkPath t u2) u2), u2⟩ ]

/-- The window `let t = *p; *p = *q; *q = t;` over pointer-like
dereference places. -/
def derefTempSwapStmts (t p q : String) (u0 u1 u2 : Span) : List Stmt :=
  [ ⟨.localDecl (.binding t none) (some (.deref (mkPath p u0) u0)), u0⟩,
    ⟨.semi (.assign (.deref (mkPath p u1) u1) (.deref (mkPath q u1) u1) u1), u1⟩,
    ⟨.semi (.assign (.deref (mkPath q u2) u2) (mkPath t u2) u2), u2⟩ ]

/-- A concrete span for witnesses. -/
def sp (n : Nat) : Span := ⟨n, n + 1, 0⟩

/-- The index expression `v[i]` over the local `v`, all spans `u`. -/
def vIdx (i : Nat) (u : Span) : Expr := Expr.index (mkPath "v" u) (Expr.lit i u) u

/-- The window `v[0] ^= v[1]; v[1] ^= v[0]; v[0] ^= v[1];`. -/
def xorIdxStmts : List Stmt :=
  [ ⟨.semi (.assignOp .bitXor (vIdx 0 (sp 0)) (vIdx 1 (sp 0)) (sp 0)), sp 0⟩,
    ⟨.semi (.assignOp .bitXor (vIdx 1 (sp 1)) (vIdx 0 (sp 1)) (sp 1)), sp 1⟩,
    ⟨.semi (.assignOp .bitXor (vIdx 0 (sp 2)) (vIdx 1 (sp 2)) (sp 2)), sp 2⟩ ]

end SwapLint

namespace SwapLint

/-- C1: the window `let t = a; a = b; b = t;` over pairwise distinct plain
locals, outside a constant-evaluation context (so the two targets are
mutably co-borrowable), yields exactly one `ManualSwap` finding with
`MachineApplicable` applicability whose suggestion is the `mem::swap` call
over mutable references to the two targets. -/
theorem manual_temp_swap_single_finding (t a b s : String) (ty : Expr → TypeTag)
    (u0 u1 u2 : Span) (hta : t ≠ a) (htb : t ≠ b) (hab : a ≠ b) :
    check_block ⟨some s, ty⟩ ⟨tempSwapStmts t a b u0 u1 u2, false⟩ =
      [ { lint := .manualSwap
          span := u0.to u2
          msg := "this looks like you are swapping `" ++ a ++ "` and `" ++ b ++ "` manually"
          sugg := s ++ "::mem::swap(" ++ ("&mut " ++ a) ++ ", " ++ ("&mut " ++ b) ++ ")"
          applicability := .machineApplicable
          note := some ("or maybe you should use `" ++ s ++ "::mem::replace`?") } ] := by
  simp [check_block, check_manual_swap, check_suspicious_swap, check_xor_swap,
    tempSwapStmts, windows3, windows2, manual_swap_window, xor_swap_window,
    suspicious_go, suspicious_match, parse, is_same, eq_expr_value,
    generate_swap_warning, can_mut_borrow_both, is_plain_local,
    ref_swap_sugg, index_swap_sugg, mut_addr, maybe_par, needsPar, snippet,
    renderPath, mkPath, extract_sides_of_xor_assign, Span.to,
    hta, htb, hab, Ne.symm hta, Ne.symm htb, Ne.symm hab]

/-- Witness for C1 at concrete inputs. -/
theorem manual_temp_swap_single_finding_witness :
    check_block ⟨some "std", fun _ => TypeTag.unknown⟩
        ⟨tempSwapStmts "t" "a" "b" (sp 0) (sp 1) (sp 2), false⟩ =
      [ { lint := .manualSwap
          span := (sp 0).to (sp 2)
          msg := "this looks like you are swapping `" ++ "a" ++ "` and `" ++ "b" ++ "` manually"
          sugg := "std" ++ "::mem::swap(" ++ ("&mut " ++ "a") ++ ", " ++ ("&mut " ++ "b") ++ ")"
          applicability := .machineApplicable
          note := some ("or maybe you should use `" ++ "std" ++ "::mem::replace`?") } ] :=
  manual_temp_swap_single_finding "t" "a" "b" "std" (fun _ => TypeTag.unknown)
    (sp 0) (sp 1) (sp 2) (by decide) (by decide) (by decide)

end SwapLint

namespace SwapLint

set_option maxHeartbeats 2000000 in
/-- C2: a confirmed temp-variable swap whose targets are index expressions
over `eq_expr_value`-equal bases (so they cannot be mutably borrowed
together) with the base typed as array, slice, `Vec` or `VecDeque` yields
one `ManualSwap` finding suggesting the container-level
`base.swap(idx1, idx2)` with the index sub-expressions verbatim — for
arbitrary, possibly unrelated (even equal) index expressions. -/
theorem index_temp_swap_container_finding (t v s : String) (i1 i2 : Expr)
    (ty : Expr → TypeTag) (u0 u1 u2 : Span) (tag : TypeTag)
    (h1 : eq_expr_value i1 i1 = true) (h2 : eq_expr_value i2 i2 = true)
    (htag : tag = .slice ∨ tag = .array ∨ tag = .vec ∨ tag = .vecDeque)
    (hty : ty (mkPath v u1) = tag) :
    check_block ⟨some s, ty⟩ ⟨indexTempSwapStmts t v i1 i2 u0 u1 u2, false⟩ =
      [ { lint := .manualSwap
          span := u0.to u2
          msg := "this looks like you are swapping elements of `" ++ v ++ "` manually"
          sugg := v ++ ".swap(" ++ snippet i1 ++ ", " ++ snippet i2 ++ ")"
          applicability := .machineApplicable
          note := none } ] := by
  simp only [mkPath] at hty
  rcases htag with h | h | h | h <;> subst h <;>
    simp [check_block, check_manual_swap, check_suspicious_swap, check_xor_swap,
      indexTempSwapStmts, windows3, windows2, manual_swap_window, xor_swap_window,
      suspicious_go, suspicious_match, parse, is_same, eq_expr_value,
      generate_swap_warning, can_mut_borrow_both, is_plain_local,
      ref_swap_sugg, index_swap_sugg, mut_addr, maybe_par, needsPar, snippet,
      renderPath, mkPath, extract_sides_of_xor_assign, Span.to, Expr.span,
      h1, h2, hty]

/-- Witness for C2 at concrete inputs. -/
theorem index_temp_swap_container_finding_witness :
    check_block ⟨some "std", fun _ => TypeTag.vec⟩
        ⟨indexTempSwapStmts "t" "v" (Expr.lit 0 (sp 5)) (Expr.lit 1 (sp 6))
          (sp 0) (sp 1) (sp 2), false⟩ =
      [ { lint := .manualSwap
          span := (sp 0).to (sp 2)
          msg := "this looks like you are swapping elements of `" ++ "v" ++ "` manually"
          sugg := "v" ++ ".swap(" ++ snippet (Expr.lit 0 (sp 5)) ++ ", " ++ snippet (Expr.lit 1 (sp 6)) ++ ")"
          applicability := .machineApplicable
          note := none } ] :=
  index_temp_swap_container_finding "t" "v" "std" (Expr.lit 0 (sp 5)) (Expr.lit 1 (sp 6))
    (fun _ => TypeTag.vec) (sp 0) (sp 1) (sp 2) TypeTag.vec
    (by decide) (by decide) (by simp) rfl

/-- C3: the adjacent pair `a = b; b = a;` over plain distinct locals in
the same hygiene context yields exactly one `AlmostSwapped` finding with
`MaybeIncorrect` (review-required) applicability — no aliasing analysis is
consulted and the applicability is never `MachineApplicable`. -/
theorem almost_swapped_single_finding (a b s : String) (ty : Expr → TypeTag)
    (u0 u1 : Span) (hab : a ≠ b) (hctxt : u0.ctxt = u1.ctxt) :
    check_block ⟨some s, ty⟩ ⟨almostSwapStmts a b u0 u1, false⟩ =
      [ { lint := .almostSwapped
          span := u0.to u1
          msg := "this looks like you are trying to swap `" ++ a ++ "` and `" ++ b ++ "`"
          sugg := s ++ "::mem::swap(" ++ ("&mut " ++ a) ++ ", " ++ ("&mut " ++ b) ++ ")"
          applicability := .maybeIncorrect
          note := some ("or maybe you should use `" ++ s ++ "::mem::replace`?") } ] := by
  simp [check_block, check_manual_swap, check_suspicious_swap, check_xor_swap,
    almostSwapStmts, assignStmt, windows3, windows2, suspicious_go, suspicious_match,
    parse, is_same, eq_expr_value, mkSuspFinding, sugg_of, mut_addr_of,
    mut_addr, maybe_par, needsPar, snippet, renderPath, mkPath,
    extract_sides_of_xor_assign, Span.to, Span.eqCtxt, Expr.span, hctxt]

/-- Witness for C3 at concrete inputs. -/
theorem almost_swapped_single_finding_witness :
    check_block ⟨some "std", fun _ => TypeTag.unknown⟩
        ⟨almostSwapStmts "a" "b" (sp 0) (sp 1), false⟩ =
      [ { lint := .almostSwapped
          span := (sp 0).to (sp 1)
          msg := "this looks like you are trying to swap `" ++ "a" ++ "` and `" ++ "b" ++ "`"
          sugg := "std" ++ "::mem::swap(" ++ ("&mut " ++ "a") ++ ", " ++ ("&mut " ++ "b") ++ ")"
          applicability := .maybeIncorrect
          note := some ("or maybe you should use `" ++ "std" ++ "::mem::replace`?") } ] :=
  almost_swapped_single_finding "a" "b" "std" (fun _ => TypeTag.unknown)
    (sp 0) (sp 1) (by decide) rfl

end SwapLint

namespace SwapLint

/-- C4 counterexample: in `x ^= x; x ^= x; x ^= x;` every statement is a
`^=` compound assignment and all four equivalence conditions of the XOR
shape hold, yet the scanner emits no finding at all: the shared generator
rejects the window because the two (identical) operands cannot be mutably
borrowed together and are not index expressions. -/
theorem xor_equivalences_without_finding :
    extract_sides_of_xor_assign (xorAssignStmt "x" "x" (sp 0)) =
      some (mkPath "x" (sp 0), mkPath "x" (sp 0))
    ∧ eq_expr_value (mkPath "x" (sp 0)) (mkPath "x" (sp 1)) = true
    ∧ eq_expr_value (mkPath "x" (sp 2)) (mkPath "x" (sp 1)) = true
    ∧ eq_expr_value (mkPath "x" (sp 1)) (mkPath "x" (sp 0)) = true
    ∧ eq_expr_value (mkPath "x" (sp 1)) (mkPath "x" (sp 2)) = true
    ∧ check_block ⟨some "std", fun _ => TypeTag.unknown⟩
        ⟨xorSwapStmts "x" "x" (sp 0) (sp 1) (sp 2), false⟩ = [] := by
  exact ⟨rfl, by decide, by decide, by decide, by decide, by decide⟩

/-- C4 (amended): a window of three `^=` compound assignments satisfying
the four equivalence conditions emits one `ManualSwap` finding whose
rendered output omits the `mem::replace` note — provided additionally
that the two operands are mutably co-borrowable (here: distinct plain
locals) and the std/core path resolves; the temp-variable reference
rewrite over the same operands does carry the note. -/
theorem xor_swap_finding_omits_note (a b s : String) (ty : Expr → TypeTag)
    (u0 u1 u2 : Span) (hab : a ≠ b) :
    check_block ⟨some s, ty⟩ ⟨xorSwapStmts a b u0 u1 u2, false⟩ =
      [ { lint := .manualSwap
          span := u0.to u2
          msg := "this looks like you are swapping `" ++ a ++ "` and `" ++ b ++ "` manually"
          sugg := s ++ "::mem::swap(" ++ ("&mut " ++ a) ++ ", " ++ ("&mut " ++ b) ++ ")"
          applicability := .machineApplicable
          note := none } ]
    ∧ (ref_swap_sugg (some s) (mkPath a u1) (mkPath b u1) (u0.to u2) false).map Finding.note =
        some (some ("or maybe you should use `" ++ s ++ "::mem::replace`?")) := by
  constructor
  · simp [check_block, check_manual_swap, check_suspicious_swap, check_xor_swap,
      xorSwapStmts, xorAssignStmt, windows3, windows2, manual_swap_window,
      xor_swap_window, suspicious_go, suspicious_match, parse, is_same,
      eq_expr_value, generate_swap_warning, can_mut_borrow_both, is_plain_local,
      ref_swap_sugg, index_swap_sugg, mut_addr, maybe_par, needsPar, snippet,
      renderPath, mkPath, extract_sides_of_xor_assign, Span.to, hab]
  · simp [ref_swap_sugg]

/-- Witness for the amended C4 at concrete inputs. -/
theorem xor_swap_finding_omits_note_witness :
    check_block ⟨some "std", fun _ => TypeTag.unknown⟩
        ⟨xorSwapStmts "a" "b" (sp 0) (sp 1) (sp 2), false⟩ =
      [ { lint := .manualSwap
          span := (sp 0).to (sp 2)
          msg := "this looks like you are swapping `" ++ "a" ++ "` and `" ++ "b" ++ "` manually"
          sugg := "std" ++ "::mem::swap(" ++ ("&mut " ++ "a") ++ ", " ++ ("&mut " ++ "b") ++ ")"
          applicability := .machineApplicable
          note := none } ]
    ∧ (ref_swap_sugg (some "std") (mkPath "a" (sp 1)) (mkPath "b" (sp 1)) ((sp 0).to (sp 2)) false).map
        Finding.note =
        some (some ("or maybe you should use `" ++ "std" ++ "::mem::replace`?")) :=
  xor_swap_finding_omits_note "a" "b" "std" (fun _ => TypeTag.unknown)
    (sp 0) (sp 1) (sp 2) (by decide)

/-- C5 counterexample: for the XOR-based match
`v[0] ^= v[1]; v[1] ^= v[0]; v[0] ^= v[1];` over a `Vec`, the two operands
fail `can_mut_borrow_both`, and the emitted finding is the container-level
`v.swap(0, 1)` of the index path, not a mutable-reference rewrite: the
aliasing feasibility check is consulted on the XOR path and decides the
outcome there. -/
theorem xor_aliasing_is_consulted :
    can_mut_borrow_both (vIdx 0 (sp 0)) (vIdx 1 (sp 0)) = false
    ∧ check_block ⟨some "std", fun _ => TypeTag.vec⟩ ⟨xorIdxStmts, false⟩ =
      [ { lint := .manualSwap
          span := (sp 0).to (sp 2)
          msg := "this looks like you are swapping elements of `v` manually"
          sugg := "v.swap(0, 1)"
          applicability := .machineApplicable
          note := none } ] := by
  exact ⟨by decide, by decide⟩

/-- C5 (amended): every XOR-shape match is routed through the shared
`generate_swap_warning`, whose first step consults `can_mut_borrow_both`
on the two operands; only when they are mutably co-borrowable does the
finding follow the mutable-reference rewrite path, otherwise the index
path is attempted. -/
theorem xor_match_routed_through_generator (cx : Ctx) (c : Bool) (s0 s1 s2 : Stmt)
    (lhs0 rhs0 lhs1 rhs1 lhs2 rhs2 : Expr)
    (h0 : extract_sides_of_xor_assign s0 = some (lhs0, rhs0))
    (h1 : extract_sides_of_xor_assign s1 = some (lhs1, rhs1))
    (h2 : extract_sides_of_xor_assign s2 = some (lhs2, rhs2))
    (he0 : eq_expr_value lhs0 rhs1 = true) (he1 : eq_expr_value lhs2 rhs1 = true)
    (he2 : eq_expr_value lhs1 rhs0 = true) (he3 : eq_expr_value lhs1 rhs2 = true) :
    check_xor_swap cx ⟨[s0, s1, s2], c⟩ =
      (generate_swap_warning cx lhs0 rhs0 (s0.span.to s2.span) true).toList
    ∧ generate_swap_warning cx lhs0 rhs0 (s0.span.to s2.span) true =
        (if can_mut_borrow_both lhs0 rhs0 then
          ref_swap_sugg cx.stdOrCore lhs0 rhs0 (s0.span.to s2.span) true
        else index_swap_sugg cx.exprTy lhs0 rhs0 (s0.span.to s2.span)) := by
  constructor
  · cases g : generate_swap_warning cx lhs0 rhs0 (s0.span.to s2.span) true <;>
      simp [check_xor_swap, windows3, xor_swap_window,
        h0, h1, h2, he0, he1, he2, he3, g]
  · rfl

/-- Witness for the amended C5 at concrete inputs. -/
theorem xor_match_routed_through_generator_witness :
    check_xor_swap ⟨some "std", fun _ => TypeTag.unknown⟩
        ⟨[xorAssignStmt "a" "b" (sp 0), xorAssignStmt "b" "a" (sp 1),
          xorAssignStmt "a" "b" (sp 2)], false⟩ =
      (generate_swap_warning ⟨some "std", fun _ => TypeTag.unknown⟩
        (mkPath "a" (sp 0)) (mkPath "b" (sp 0))
        ((xorAssignStmt "a" "b" (sp 0)).span.to (xorAssignStmt "a" "b" (sp 2)).span) true).toList
    ∧ generate_swap_warning ⟨some "std", fun _ => TypeTag.unknown⟩
        (mkPath "a" (sp 0)) (mkPath "b" (sp 0))
        ((xorAssignStmt "a" "b" (sp 0)).span.to (xorAssignStmt "a" "b" (sp 2)).span) true =
        (if can_mut_borrow_both (mkPath "a" (sp 0)) (mkPath "b" (sp 0)) then
          ref_swap_sugg (some "std") (mkPath "a" (sp 0)) (mkPath "b" (sp 0))
            ((xorAssignStmt "a" "b" (sp 0)).span.to (xorAssignStmt "a" "b" (sp 2)).span) true
        else index_swap_sugg (fun _ => TypeTag.unknown) (mkPath "a" (sp 0)) (mkPath "b" (sp 0))
            ((xorAssignStmt "a" "b" (sp 0)).span.to (xorAssignStmt "a" "b" (sp 2)).span)) :=
  xor_match_routed_through_generator ⟨some "std", fun _ => TypeTag.unknown⟩ false
    (xorAssignStmt "a" "b" (sp 0)) (xorAssignStmt "b" "a" (sp 1)) (xorAssignStmt "a" "b" (sp 2))
    (mkPath "a" (sp 0)) (mkPath "b" (sp 0)) (mkPath "b" (sp 1)) (mkPath "a" (sp 1))
    (mkPath "a" (sp 2)) (mkPath "b" (sp 2)) rfl rfl rfl
    (by decide) (by decide) (by decide) (by decide)

end SwapLint

namespace SwapLint

/-- With the std/core query unavailable no almost-swapped finding can be
assembled, so the never-aborting scan yields nothing either. -/
theorem suspicious_scan_spec_none (cx : Ctx) (h : cx.stdOrCore = none) :
    ∀ ws : List (Stmt × Stmt), suspicious_scan_spec cx ws = [] := by
  intro ws
  induction ws with
  | nil => rfl
  | cons w rest ih =>
    obtain ⟨f, s⟩ := w
    cases hm : suspicious_match f s with
    | none => simp [suspicious_scan_spec, hm, ih]
    | some p =>
      obtain ⟨l, r, spn⟩ := p
      simp [suspicious_scan_spec, hm, h, ih]

/-- C6: a missing collaborator query degrades each detector to "no match"
only on the path requiring it, and never aborts the scan of the remaining
windows of the block: (1) the almost-swapped loop, whose source performs
an early `return` when `std_or_core` fails after a match, is
observationally the never-aborting window-by-window scan; (2) with
std/core unavailable the shared generator still produces exactly the
index-path findings; (3) with type information unavailable it still
produces exactly the reference-path findings. -/
theorem collaborator_degradation :
    (∀ (cx : Ctx) (ws : List (Stmt × Stmt)), suspicious_go cx ws = suspicious_scan_spec cx ws)
    ∧ (∀ (ty : Expr → TypeTag) (e1 e2 : Expr) (w : Span) (b : Bool),
        generate_swap_warning ⟨none, ty⟩ e1 e2 w b = index_swap_sugg ty e1 e2 w)
    ∧ (∀ (s : String) (e1 e2 : Expr) (w : Span) (b : Bool),
        generate_swap_warning ⟨some s, fun _ => TypeTag.unknown⟩ e1 e2 w b =
          if can_mut_borrow_both e1 e2 then ref_swap_sugg (some s) e1 e2 w b else none) := by
  refine ⟨?_, ?_, ?_⟩
  · intro cx ws
    induction ws with
    | nil => rfl
    | cons w rest ih =>
      obtain ⟨f, s⟩ := w
      cases hm : suspicious_match f s with
      | none => simp [suspicious_go, suspicious_scan_spec, hm, ih]
      | some p =>
        obtain ⟨l, r, spn⟩ := p
        cases hstd : cx.stdOrCore with
        | none =>
          simp [suspicious_go, suspicious_scan_spec, hm, hstd,
            suspicious_scan_spec_none cx hstd]
        | some sugg => simp [suspicious_go, suspicious_scan_spec, hm, hstd, ih]
  · intro ty e1 e2 w b
    cases e1 <;> cases e2 <;>
      simp [generate_swap_warning, can_mut_borrow_both, is_plain_local,
        ref_swap_sugg, index_swap_sugg, ite_self]
  · intro s e1 e2 w b
    cases h : can_mut_borrow_both e1 e2 with
    | true => simp [generate_swap_warning, h]
    | false =>
      cases e1 <;> cases e2 <;>
        simp [generate_swap_warning, h, index_swap_sugg, ite_self]

/-- C7: the temp-variable swap shape over two pointer-like dereference
places — which can neither be mutably borrowed together nor rewritten
through the index fallback — produces no finding of any kind, whatever
the context. -/
theorem deref_temp_swap_no_finding (cx : Ctx) (t p q : String) (u0 u1 u2 : Span) :
    check_block cx ⟨derefTempSwapStmts t p q u0 u1 u2, false⟩ = [] := by
  simp [check_block, check_manual_swap, check_suspicious_swap, check_xor_swap,
    derefTempSwapStmts, windows3, windows2, manual_swap_window, xor_swap_window,
    suspicious_go, suspicious_match, parse, is_same, eq_expr_value,
    generate_swap_warning, can_mut_borrow_both, is_plain_local,
    ref_swap_sugg, index_swap_sugg, mkPath, extract_sides_of_xor_assign]

/-- C8: inside a constant-evaluation context the temp-variable detector
emits nothing, although the very same window yields a finding outside
one. -/
theorem const_context_suppresses_manual_swap (cx : Ctx) (t a b s : String)
    (u0 u1 u2 : Span) (hs : cx.stdOrCore = some s) (hab : a ≠ b) :
    check_manual_swap cx ⟨tempSwapStmts t a b u0 u1 u2, true⟩ = []
    ∧ check_manual_swap cx ⟨tempSwapStmts t a b u0 u1 u2, false⟩ ≠ [] := by
  constructor
  · rfl
  · simp [check_manual_swap, tempSwapStmts, windows3, manual_swap_window,
      eq_expr_value, generate_swap_warning, can_mut_borrow_both, is_plain_local,
      ref_swap_sugg, index_swap_sugg, mkPath, hs, hab]

/-- Witness for C8 at concrete inputs. -/
theorem const_context_suppresses_manual_swap_witness :
    check_manual_swap ⟨some "std", fun _ => TypeTag.unknown⟩
        ⟨tempSwapStmts "t" "a" "b" (sp 0) (sp 1) (sp 2), true⟩ = []
    ∧ check_manual_swap ⟨some "std", fun _ => TypeTag.unknown⟩
        ⟨tempSwapStmts "t" "a" "b" (sp 0) (sp 1) (sp 2), false⟩ ≠ [] :=
  const_context_suppresses_manual_swap ⟨some "std", fun _ => TypeTag.unknown⟩
    "t" "a" "b" "std" (sp 0) (sp 1) (sp 2) rfl (by decide)

end SwapLint

namespace SwapLint

/-- C9: a 4-statement block made of two adjacent near-swap pairs over
disjoint variables yields exactly two `AlmostSwapped` findings, and with
the statements in source order (the first pair ending before the second
begins) the two covering spans do not overlap. -/
theorem double_near_swap_two_findings (a b c d s : String) (ty : Expr → TypeTag)
    (u0 u1 u2 u3 : Span)
    (hac : a ≠ c) (had : a ≠ d) (hbc : b ≠ c) (hbd : b ≠ d)
    (hc01 : u0.ctxt = u1.ctxt) (hc23 : u2.ctxt = u3.ctxt)
    (hord : u1.hi < u2.lo) :
    check_block ⟨some s, ty⟩
        ⟨almostSwapStmts a b u0 u1 ++ almostSwapStmts c d u2 u3, false⟩ =
      [ { lint := .almostSwapped
          span := u0.to u1
          msg := "this looks like you are trying to swap `" ++ a ++ "` and `" ++ b ++ "`"
          sugg := s ++ "::mem::swap(" ++ ("&mut " ++ a) ++ ", " ++ ("&mut " ++ b) ++ ")"
          applicability := .maybeIncorrect
          note := some ("or maybe you should use `" ++ s ++ "::mem::replace`?") },
        { lint := .almostSwapped
          span := u2.to u3
          msg := "this looks like you are trying to swap `" ++ c ++ "` and `" ++ d ++ "`"
          sugg := s ++ "::mem::swap(" ++ ("&mut " ++ c) ++ ", " ++ ("&mut " ++ d) ++ ")"
          applicability := .maybeIncorrect
          note := some ("or maybe you should use `" ++ s ++ "::mem::replace`?") } ]
    ∧ (u0.to u1).hi < (u2.to u3).lo := by
  constructor
  · simp [check_block, check_manual_swap, check_suspicious_swap, check_xor_swap,
      almostSwapStmts, assignStmt, windows3, windows2, manual_swap_window,
      xor_swap_window, suspicious_go, suspicious_match,
      parse, is_same, eq_expr_value, mkSuspFinding, sugg_of, mut_addr_of,
      mut_addr, maybe_par, needsPar, snippet, renderPath, mkPath,
      extract_sides_of_xor_assign, Span.to, Span.eqCtxt, Expr.span,
      hc01, hc23, hbd, Ne.symm hbd]
  · simpa [Span.to] using hord

/-- Witness for C9 at concrete inputs. -/
theorem double_near_swap_two_findings_witness :
    check_block ⟨some "std", fun _ => TypeTag.unknown⟩
        ⟨almostSwapStmts "a" "b" (sp 0) (sp 1) ++ almostSwapStmts "c" "d" (sp 4) (sp 5), false⟩ =
      [ { lint := .almostSwapped
          span := (sp 0).to (sp 1)
          msg := "this looks like you are trying to swap `" ++ "a" ++ "` and `" ++ "b" ++ "`"
          sugg := "std" ++ "::mem::swap(" ++ ("&mut " ++ "a") ++ ", " ++ ("&mut " ++ "b") ++ ")"
          applicability := .maybeIncorrect
          note := some ("or maybe you should use `" ++ "std" ++ "::mem::replace`?") },
        { lint := .almostSwapped
          span := (sp 4).to (sp 5)
          msg := "this looks like you are trying to swap `" ++ "c" ++ "` and `" ++ "d" ++ "`"
          sugg := "std" ++ "::mem::swap(" ++ ("&mut " ++ "c") ++ ", " ++ ("&mut " ++ "d") ++ ")"
          applicability := .maybeIncorrect
          note := some ("or maybe you should use `" ++ "std" ++ "::mem::replace`?") } ]
    ∧ ((sp 0).to (sp 1)).hi < ((sp 4).to (sp 5)).lo :=
  double_near_swap_two_findings "a" "b" "c" "d" "std" (fun _ => TypeTag.unknown)
    (sp 0) (sp 1) (sp 4) (sp 5)
    (by decide) (by decide) (by decide) (by decide) rfl rfl (by decide)

/-- C10: only the temp-variable detector is guarded by the
constant-evaluation-context check: inside a constant-evaluation context
the XOR-swap shape still yields its `ManualSwap` finding and the
suspicious near-swap shape still yields its `AlmostSwapped` finding. -/
theorem const_context_spares_xor_and_suspicious (a b s : String) (ty : Expr → TypeTag)
    (u0 u1 u2 w0 w1 : Span) (hab : a ≠ b) (hctxt : w0.ctxt = w1.ctxt) :
    check_block ⟨some s, ty⟩ ⟨xorSwapStmts a b u0 u1 u2, true⟩ =
      [ { lint := .manualSwap
          span := u0.to u2
          msg := "this looks like you are swapping `" ++ a ++ "` and `" ++ b ++ "` manually"
          sugg := s ++ "::mem::swap(" ++ ("&mut " ++ a) ++ ", " ++ ("&mut " ++ b) ++ ")"
          applicability := .machineApplicable
          note := none } ]
    ∧ check_block ⟨some s, ty⟩ ⟨almostSwapStmts a b w0 w1, true⟩ =
      [ { lint := .almostSwapped
          span := w0.to w1
          msg := "this looks like you are trying to swap `" ++ a ++ "` and `" ++ b ++ "`"
          sugg := s ++ "::mem::swap(" ++ ("&mut " ++ a) ++ ", " ++ ("&mut " ++ b) ++ ")"
          applicability := .maybeIncorrect
          note := some ("or maybe you should use `" ++ s ++ "::mem::replace`?") } ] := by
  constructor
  · simp [check_block, check_manual_swap, check_suspicious_swap, check_xor_swap,
      xorSwapStmts, xorAssignStmt, windows3, windows2, manual_swap_window,
      xor_swap_window, suspicious_go, suspicious_match, parse, is_same,
      eq_expr_value, generate_swap_warning, can_mut_borrow_both, is_plain_local,
      ref_swap_sugg, index_swap_sugg, mut_addr, maybe_par, needsPar, snippet,
      renderPath, mkPath, extract_sides_of_xor_assign, Span.to, hab]
  · simp [check_block, check_manual_swap, check_suspicious_swap, check_xor_swap,
      almostSwapStmts, assignStmt, windows3, windows2, suspicious_go, suspicious_match,
      parse, is_same, eq_expr_value, mkSuspFinding, sugg_of, mut_addr_of,
      mut_addr, maybe_par, needsPar, snippet, renderPath, mkPath,
      extract_sides_of_xor_assign, Span.to, Span.eqCtxt, Expr.span, hctxt]

/-- Witness for C10 at concrete inputs. -/
theorem const_context_spares_xor_and_suspicious_witness :
    check_block ⟨some "std", fun _ => TypeTag.unknown⟩
        ⟨xorSwapStmts "a" "b" (sp 0) (sp 1) (sp 2), true⟩ =
      [ { lint := .manualSwap
          span := (sp 0).to (sp 2)
          msg := "this looks like you are swapping `" ++ "a" ++ "` and `" ++ "b" ++ "` manually"
          sugg := "std" ++ "::mem::swap(" ++ ("&mut " ++ "a") ++ ", " ++ ("&mut " ++ "b") ++ ")"
          applicability := .machineApplicable
          note := none } ]
    ∧ check_block ⟨some "std", fun _ => TypeTag.unknown⟩
        ⟨almostSwapStmts "a" "b" (sp 0) (sp 1), true⟩ =
      [ { lint := .almostSwapped
          span := (sp 0).to (sp 1)
          msg := "this looks like you are trying to swap `" ++ "a" ++ "` and `" ++ "b" ++ "`"
          sugg := "std" ++ "::mem::swap(" ++ ("&mut " ++ "a") ++ ", " ++ ("&mut " ++ "b") ++ ")"
          applicability := .maybeIncorrect
          note := some ("or maybe you should use `" ++ "std" ++ "::mem::replace`?") } ] :=
  const_context_spares_xor_and_suspicious "a" "b" "std" (fun _ => TypeTag.unknown)
    (sp 0) (sp 1) (sp 2) (sp 0) (sp 1) (by decide) rfl

end SwapLint
